import Mathlib

/-!
Verification of the stonely client pipeline (src/src/app/analyze/page.tsx and
the RockMesh assembler in src/src/components/sections/examples.tsx).

Modelling conventions:
- JavaScript numbers are modelled as exact rationals (ℚ); the float32 rounding
  performed by Float32Array and IEEE-754 arithmetic are outside the model,
  since every claim is about buffer layout, ordering and lengths, not numeric
  precision.
- Face indices are naturals; the Uint32Array conversion is modelled as
  reduction modulo 2^32.
- A JSON field whose presence the code tests at runtime (model_data, vertices,
  faces, colors, texture_coords, the file input DOM node) is an Option;
  `none` models the field being absent (undefined/null). Fields the code
  never presence-tests keep their plain TypeScript type.
- React `useState` cells of the UploadSection component are gathered into one
  record `PageState`; each async handler becomes a function from the state
  and the (externally supplied) fetch outcome to the new state, executing the
  same assignments in the same order as the source.
-/

namespace Stonely

/-- JavaScript truthiness of a string: the empty string is falsy. -/
def strTruthy (s : String) : Bool := s ≠ ""

/-- The JS expression `d || fallback` for an optional string `d`:
yields `d`'s value when present and truthy (non-empty), else the fallback. -/
def jsOr (d : Option String) (fallback : String) : String :=
  match d with
  | some t => if strTruthy t then t else fallback
  | none => fallback

/-- A thrown JavaScript value: either an `Error` object carrying a message, or
any other value (for which `err instanceof Error` is false). -/
inductive Thrown where
  | errorObj (msg : String)
  | nonError
deriving DecidableEq

/-- The expression `err instanceof Error ? err.message : fallback`. -/
def thrownMsg (fallback : String) : Thrown → String
  | .errorObj m => m
  | .nonError => fallback

/-- Outcome of a `fetch` + body-parse sequence, as observed by the try block:
a parsed 2xx body, a non-2xx status whose JSON body optionally carries a
`detail` string, or a thrown value (transport failure, or a body that failed
to parse as JSON). -/
inductive FetchOutcome (α : Type) where
  | ok (value : α)
  | httpError (status : Nat) (detail : Option String)
  | raised (t : Thrown)
deriving DecidableEq

/-- The `metadata` object of the generation payload (page.tsx lines 31-36). -/
structure ModelMetadata where
  vertex_count : Nat
  face_count : Nat
  original_dimensions : List ℚ
  scale_factor : ℚ
deriving DecidableEq

/-- The `model_data` object (the GeometryPayload of the spec): vertices,
faces, texture coordinates and colors as nested numeric arrays.  The four
arrays are Options because the client presence-tests them
(`!modelData.vertices`, `!modelData.faces`, `modelData.colors && ...`,
`modelData.texture_coords && ...`). -/
structure ModelData where
  vertices : Option (List (List ℚ))
  faces : Option (List (List Nat))
  texture_coords : Option (List (List ℚ))
  colors : Option (List (List ℚ))
  metadata : ModelMetadata
deriving DecidableEq

/-- The `processing_info` object of a generation response. -/
structure ProcessingInfo where
  depth_estimation : String
  device_used : String
  mesh_generation : String
deriving DecidableEq

/-- The `summary` object of a generation response. -/
structure SummaryInfo where
  vertex_count : Nat
  face_count : Nat
  has_texture : Bool
  has_colors : Bool
  bbox_min : List ℚ
  bbox_max : List ℚ
deriving DecidableEq

/-- The UploadResponse interface (page.tsx lines 12-20). -/
structure UploadResponse where
  success : Bool
  message : String
  file_id : String
  filename : String
  size : Nat
  content_type : String
  upload_time : String
deriving DecidableEq

/-- The Generate3DResponse interface (page.tsx lines 22-52).  `model_data` is
an Option because the validation effect guards on `generate3DResult?.model_data`. -/
structure Generate3DResponse where
  success : Bool
  message : String
  file_id : String
  model_data : Option ModelData
  processing_info : ProcessingInfo
  generation_time : String
  summary : SummaryInfo
deriving DecidableEq

/-- A file handed to the upload handler; only its identity matters here. -/
abbrev JsFile := String

/-- The `useState` cells of `UploadSection` (page.tsx lines 55-63), plus the
`value` of the hidden file input: `fileInput = none` models an unmounted ref
(`fileInputRef.current === null`), `some v` a mounted input with value `v`. -/
structure PageState where
  isDragging : Bool
  isUploading : Bool
  uploadResult : Option UploadResponse
  error : Option String
  isGenerating3D : Bool
  generate3DResult : Option Generate3DResponse
  is3DReady : Bool
  threeDError : Option String
  fileInput : Option String
deriving DecidableEq

/-- The initial state of the component: all flags false, all results and
errors null, the file input mounted and empty. -/
def initialPageState : PageState :=
  { isDragging := false
    isUploading := false
    uploadResult := none
    error := none
    isGenerating3D := false
    generate3DResult := none
    is3DReady := false
    threeDError := none
    fileInput := some "" }

/-- `handleFileUpload` (page.tsx lines 89-115): set the uploading flag, clear
error and previous result; on 2xx store the parsed body; on non-2xx throw
`Error(errorData.detail || fallback)` and catch it into `error`; on any
thrown value surface its message (or the generic fallback for
non-Error values); finally clear the uploading flag. -/
def handleFileUpload (s : PageState) (o : FetchOutcome UploadResponse) : PageState :=
  let s1 := { s with isUploading := true, error := none, uploadResult := none }
  let s2 :=
    match o with
    | .ok r => { s1 with uploadResult := some r }
    | .httpError status detail =>
        { s1 with error := some (thrownMsg ("Upload failed")
            (.errorObj (jsOr detail ("Upload failed: " ++ toString status)))) }
    | .raised t => { s1 with error := some (thrownMsg ("Upload failed") t) }
  { s2 with isUploading := false }

/-- `handleDrop` (page.tsx lines 127-135): clear the dragging flag; when the
drop carries at least one file, initiate exactly one upload with the first
file.  The second component collects the uploads initiated by the handler. -/
def handleDrop (s : PageState) (files : List JsFile) : PageState × List JsFile :=
  ({ s with isDragging := false },
   match files with
   | [] => []
   | f :: _ => [f])

/-- `handleGenerate3D` (page.tsx lines 152-178): no-op when no upload result
is stored; otherwise perform the generation call (second component: the
request URLs issued) with the same error policy as the upload handler, and
clear the generating flag at the end. -/
def handleGenerate3D (s : PageState) (o : FetchOutcome Generate3DResponse) :
    PageState × List String :=
  match s.uploadResult with
  | none => (s, [])
  | some ur =>
    let s1 := { s with isGenerating3D := true, error := none }
    let s2 :=
      match o with
      | .ok r => { s1 with generate3DResult := some r }
      | .httpError status detail =>
          { s1 with error := some (thrownMsg ("3D generation failed")
              (.errorObj (jsOr detail ("3D generation failed: " ++ toString status)))) }
      | .raised t => { s1 with error := some (thrownMsg ("3D generation failed") t) }
    ({ s2 with isGenerating3D := false },
     ["http://localhost:8000/generate-3d/" ++ ur.file_id])

/-- `resetUpload` (page.tsx lines 180-189): null out both results, both error
messages and the ready flag, and clear the file input value when the ref is
mounted. -/
def resetUpload (s : PageState) : PageState :=
  { s with uploadResult := none
           error := none
           generate3DResult := none
           is3DReady := false
           threeDError := none
           fileInput := s.fileInput.map (fun _ => "") }

/-- The UI-visible states of the spec's client state machine (spec section 4.1). -/
inductive UIState where
  | idle
  | uploading
  | uploaded
  | generating
  | ready
  | errorShown
deriving DecidableEq

/-- Modelled from the spec: the spec's state machine names states the React
component only represents through its render conditions (page.tsx lines 212,
261, 314, 402): an error banner whenever `error` is set, the 3D result block
whenever `generate3DResult` is set, the upload-success card when only
`uploadResult` is set (generating while the flag is on), and the drop zone
otherwise (uploading while the flag is on, else idle). -/
def derivedState (s : PageState) : UIState :=
  if s.error.isSome then .errorShown
  else if s.generate3DResult.isSome then .ready
  else if s.uploadResult.isSome then
    (if s.isGenerating3D then .generating else .uploaded)
  else if s.isUploading then .uploading
  else .idle

/-- The validation performed inside the delayed callback (page.tsx line 76):
`!modelData.vertices || !modelData.faces || modelData.vertices.length === 0`
throws 'Invalid model data structure'.  An absent array is falsy; a present
array — even the empty one — is truthy, so only the emptiness of `vertices`
is checked, never the emptiness of `faces`. -/
def validateModelData (m : ModelData) : Bool :=
  match m.vertices, m.faces with
  | some vs, some _ => vs.length != 0
  | _, _ => false

/-- The state touched by the validation `useEffect` (page.tsx lines 66-87):
the pending `setTimeout` payload (none: no timer scheduled), the `is3DReady`
flag and the `threeDError` message. -/
structure ValidationState where
  pending : Option ModelData
  is3DReady : Bool
  threeDError : Option String
deriving DecidableEq

/-- Initial validation state: no timer, not ready, no error. -/
def initValidation : ValidationState :=
  { pending := none, is3DReady := false, threeDError := none }

/-- Events driving the validation effect: the `generate3DResult` dependency
changing to a new response (React runs the previous effect's cleanup —
`clearTimeout` — before the new effect body), or the pending timer firing
after its 500 ms delay. -/
inductive VEvent where
  | newResult (r : Generate3DResponse)
  | timerFire
deriving DecidableEq

/-- One step of the validation effect.  On a new result the previous timer is
always cancelled (cleanup); when the new result carries `model_data` the
effect resets `is3DReady`/`threeDError` and schedules a fresh timer.  When
the timer fires, the stored payload is validated: success sets the ready
flag, failure stores the 'Invalid model data structure' message. -/
def vstep (s : ValidationState) : VEvent → ValidationState
  | .newResult r =>
      match r.model_data with
      | some m => { pending := some m, is3DReady := false, threeDError := none }
      | none => { s with pending := none }
  | .timerFire =>
      match s.pending with
      | none => s
      | some m =>
          if validateModelData m then
            { pending := none, is3DReady := true, threeDError := none }
          else
            { pending := none, is3DReady := false,
              threeDError := some ("Invalid model data structure") }

/-- Run a sequence of validation events from a state. -/
def runValidation (s : ValidationState) (es : List VEvent) : ValidationState :=
  es.foldl vstep s

/-- The geometry assembled by `RockMesh` (examples.tsx lines 235-262): the
flat position buffer (item size 3), the index buffer (item size 1), and the
optional color (item size 3) and uv (item size 2) buffers. Normal
computation (`computeVertexNormals`) alters none of these buffers and is not
modelled. -/
structure AssembledGeometry where
  position : List ℚ
  index : List Nat
  color : Option (List ℚ)
  uv : Option (List ℚ)
deriving DecidableEq

/-- The geometry `useMemo` of `RockMesh`: flatten `vertices` into the
position buffer, flatten `faces` through the Uint32 conversion into the
index buffer, and attach color/uv buffers exactly when the corresponding
array is present and non-empty.  `none` models the TypeError thrown by
`.flat()` when `vertices` or `faces` is absent. -/
def rockMeshGeometry (m : ModelData) : Option AssembledGeometry :=
  match m.vertices, m.faces with
  | some vs, some fs =>
      some { position := vs.flatten
             index := fs.flatten.map (fun v => v % 2 ^ 32)
             color :=
               match m.colors with
               | some cs => if cs.length > 0 then some cs.flatten else none
               | none => none
             uv :=
               match m.texture_coords with
               | some ts => if ts.length > 0 then some ts.flatten else none
               | none => none }
  | _, _ => none

/-- The material assembled by `RockMesh` (examples.tsx lines 264-272). -/
structure AssembledMaterial where
  vertexColors : Bool
  color : Nat
  roughness : ℚ
  metalness : ℚ
  doubleSide : Bool
deriving DecidableEq

/-- Whether the payload enables vertex colors:
`modelData.colors && modelData.colors.length > 0`. -/
def hasColors (m : ModelData) : Bool :=
  match m.colors with
  | some cs => cs.length > 0
  | none => false

/-- The material `useMemo` of `RockMesh`: vertex-color shading exactly when
colors are present and non-empty, white base color in that case and the
fixed rock-brown 0x8B7355 otherwise, fixed roughness 0.8 / metalness 0.1,
double-sided. -/
def rockMeshMaterial (m : ModelData) : AssembledMaterial :=
  { vertexColors := hasColors m
    color := if hasColors m then 0xffffff else 0x8B7355
    roughness := 0.8
    metalness := 0.1
    doubleSide := true }

/-- Modelled from the spec (section 4.1, amended by the code's actual check):
a payload counts as renderable when `vertices` is present and non-empty and
`faces` is present; the emptiness of `faces` is not part of the check. -/
def renderableAmended (m : ModelData) : Bool :=
  decide ((m.vertices.getD []).length > 0) && m.faces.isSome

/-- Modelled from the spec (section 7, amended): the error message for a
non-2xx upload response is the body's `detail` field when present and
non-empty, else the generic fallback carrying the status code. -/
def specUploadErrorMessage (status : Nat) (detail : Option String) : String :=
  match detail with
  | some t => if t = "" then "Upload failed: " ++ toString status else t
  | none => "Upload failed: " ++ toString status

/-- Flattening a list of lists that all have length n yields n times as many
elements. -/
theorem flatten_length_uniform {α : Type} {n : Nat} :
    ∀ l : List (List α), (∀ x ∈ l, x.length = n) → l.flatten.length = n * l.length
  | [], _ => by simp
  | x :: xs, h => by
      have hx : x.length = n := h x (List.mem_cons_self _ _)
      have ih := flatten_length_uniform xs (fun y hy => h y (List.mem_cons_of_mem _ hy))
      simp only [List.flatten_cons, List.length_append, List.length_cons, ih, hx]
      ring

/-- Element n*i+k of the flattening of a list of length-n lists is element k
of list i (as optional lookups, so no bounds are needed). -/
theorem flatten_getElem_uniform {α : Type} {n : Nat} :
    ∀ (l : List (List α)) (_ : ∀ x ∈ l, x.length = n) (i k : Nat), k < n →
      l.flatten[n * i + k]? = l[i]?.bind fun x => x[k]?
  | [], _, i, k, _ => by simp
  | x :: xs, h, 0, k, hk => by
      have hx : x.length = n := h x (List.mem_cons_self _ _)
      simp only [List.flatten_cons, Nat.mul_zero, Nat.zero_add]
      rw [List.getElem?_append_left (by omega)]
      simp
  | x :: xs, h, i + 1, k, hk => by
      have hx : x.length = n := h x (List.mem_cons_self _ _)
      have hrest : ∀ y ∈ xs, y.length = n := fun y hy => h y (List.mem_cons_of_mem _ hy)
      have harith : n * (i + 1) + k = x.length + (n * i + k) := by rw [hx]; ring
      rw [List.flatten_cons, harith, List.getElem?_append_right (by omega)]
      have harith2 : x.length + (n * i + k) - x.length = n * i + k := by omega
      rw [harith2, flatten_getElem_uniform xs hrest i k hk]
      simp

/-- The code's validation predicate coincides with the amended renderability
predicate: vertices present and non-empty, faces present. -/
theorem validateModelData_eq_renderableAmended (m : ModelData) :
    validateModelData m = renderableAmended m := by
  rcases m with ⟨v, f, t, c, md⟩
  cases v with
  | none => cases f <;> simp [validateModelData, renderableAmended]
  | some vs =>
    cases f with
    | none => simp [validateModelData, renderableAmended]
    | some fs => cases vs <;> simp [validateModelData, renderableAmended]

/-- Fixture: the metadata of the three-vertex example payload. -/
def exampleMetadata : ModelMetadata :=
  { vertex_count := 3, face_count := 1, original_dimensions := [4, 4], scale_factor := 1 }

/-- Fixture: the spec's example vertices. -/
def exampleVertices : List (List ℚ) := [[0, 0, 0], [1, 0, 0], [0, 1, 0]]

/-- Fixture: the spec's example single triangle. -/
def exampleFaces : List (List Nat) := [[0, 1, 2]]

/-- Fixture: the spec's end-to-end example payload (three vertices, one
triangle, no colors, no texture coordinates). -/
def exampleModelData : ModelData :=
  { vertices := some exampleVertices, faces := some exampleFaces,
    texture_coords := none, colors := none, metadata := exampleMetadata }

/-- Fixture: the example payload with its faces array emptied. -/
def facesEmptyModelData : ModelData :=
  { exampleModelData with faces := some [] }

/-- Fixture: processing provenance for a generation response. -/
def exampleProcessing : ProcessingInfo :=
  { depth_estimation := "midas", device_used := "cpu", mesh_generation := "delaunay" }

/-- Fixture: summary block for a generation response. -/
def exampleSummary : SummaryInfo :=
  { vertex_count := 3, face_count := 1, has_texture := false, has_colors := false,
    bbox_min := [0, 0, 0], bbox_max := [1, 1, 0] }

/-- Fixture: a generation response around a given (possibly absent) payload. -/
def mkResponse (m : Option ModelData) : Generate3DResponse :=
  { success := true, message := "generated", file_id := "abc123", model_data := m,
    processing_info := exampleProcessing, generation_time := "t0",
    summary := exampleSummary }

/-- C1 as stated is false: a stored payload whose `faces` array is present
but empty reaches the ready state with no error after the validation delay,
although the claim requires the generation-error state whenever `faces` is
empty. -/
theorem validation_empty_faces_counterexample :
    facesEmptyModelData.faces = some [] ∧
    (runValidation initValidation
        [VEvent.newResult (mkResponse (some facesEmptyModelData)),
         VEvent.timerFire]).is3DReady = true ∧
    (runValidation initValidation
        [VEvent.newResult (mkResponse (some facesEmptyModelData)),
         VEvent.timerFire]).threeDError = none := by
  refine ⟨rfl, ?_, ?_⟩ <;> rfl

/-- C1 (amended): for a stored generation result carrying a payload, after
the validation delay the pipeline is ready exactly when `vertices` is present
and non-empty and `faces` is present (the code never checks that `faces` is
non-empty); otherwise it reaches the generation-error state with message
'Invalid model data structure', and readiness excludes the error state. -/
theorem validation_ready_iff_renderable (s : ValidationState)
    (r : Generate3DResponse) (m : ModelData) (h : r.model_data = some m) :
    (runValidation s [VEvent.newResult r, VEvent.timerFire]).is3DReady
        = renderableAmended m ∧
    (runValidation s [VEvent.newResult r, VEvent.timerFire]).threeDError
        = (if renderableAmended m then none
           else some ("Invalid model data structure")) ∧
    ((runValidation s [VEvent.newResult r, VEvent.timerFire]).is3DReady = true
        ↔ (runValidation s [VEvent.newResult r, VEvent.timerFire]).threeDError
            = none) := by
  have hv := validateModelData_eq_renderableAmended m
  cases hr : renderableAmended m <;>
    simp [runValidation, vstep, h, hv, hr]

/-- Witness for C1: the three-vertex one-triangle payload is renderable and
reaches the ready state with no error after the timer fires. -/
theorem validation_ready_iff_renderable_witness :
    (runValidation initValidation
        [VEvent.newResult (mkResponse (some exampleModelData)),
         VEvent.timerFire]).is3DReady = renderableAmended exampleModelData ∧
    (runValidation initValidation
        [VEvent.newResult (mkResponse (some exampleModelData)),
         VEvent.timerFire]).threeDError
        = (if renderableAmended exampleModelData then none
           else some ("Invalid model data structure")) ∧
    ((runValidation initValidation
        [VEvent.newResult (mkResponse (some exampleModelData)),
         VEvent.timerFire]).is3DReady = true
        ↔ (runValidation initValidation
            [VEvent.newResult (mkResponse (some exampleModelData)),
             VEvent.timerFire]).threeDError = none) :=
  validation_ready_iff_renderable initValidation
    (mkResponse (some exampleModelData)) exampleModelData rfl

/-- C8: when a newer generation result carrying a payload arrives, the effect
step is independent of whatever state the earlier result left behind (its
pending timer is cancelled by the cleanup), the fresh timer holds exactly the
new result's payload, and any subsequent run agrees regardless of the earlier
history — last-write-wins for validation outcomes. -/
theorem validation_last_write_wins (s s' : ValidationState)
    (r : Generate3DResponse) (m : ModelData) (h : r.model_data = some m)
    (later : List VEvent) :
    vstep s (VEvent.newResult r) = vstep s' (VEvent.newResult r) ∧
    (vstep s (VEvent.newResult r)).pending = some m ∧
    runValidation (vstep s (VEvent.newResult r)) later
      = runValidation (vstep s' (VEvent.newResult r)) later := by
  have h1 : vstep s (VEvent.newResult r) = vstep s' (VEvent.newResult r) := by
    simp [vstep, h]
  exact ⟨h1, by simp [vstep, h], by rw [h1]⟩

/-- Witness for C8: a state with a stale pending payload and an error message
behaves, after a fresh result arrives, exactly like the pristine state. -/
theorem validation_last_write_wins_witness :
    vstep { pending := some facesEmptyModelData, is3DReady := true,
            threeDError := some ("stale") }
        (VEvent.newResult (mkResponse (some exampleModelData)))
      = vstep initValidation
          (VEvent.newResult (mkResponse (some exampleModelData))) ∧
    (vstep { pending := some facesEmptyModelData, is3DReady := true,
             threeDError := some ("stale") }
        (VEvent.newResult (mkResponse (some exampleModelData)))).pending
      = some exampleModelData ∧
    runValidation
        (vstep { pending := some facesEmptyModelData, is3DReady := true,
                 threeDError := some ("stale") }
          (VEvent.newResult (mkResponse (some exampleModelData))))
        [VEvent.timerFire]
      = runValidation
          (vstep initValidation
            (VEvent.newResult (mkResponse (some exampleModelData))))
          [VEvent.timerFire] :=
  validation_last_write_wins
    { pending := some facesEmptyModelData, is3DReady := true,
      threeDError := some ("stale") }
    initValidation (mkResponse (some exampleModelData)) exampleModelData rfl
    [VEvent.timerFire]

/-- C2 as stated is false: a non-2xx response whose body carries a present
but empty `detail` field produces the generic fallback message, not the
`detail` value. -/
theorem upload_error_detail_counterexample :
    (handleFileUpload initialPageState
        (FetchOutcome.httpError 400 (some ""))).error
      = some ("Upload failed: 400") ∧
    some ("Upload failed: 400") ≠ (some ("") : Option String) := by
  exact ⟨rfl, by decide⟩

/-- C2 (amended): for a non-2xx upload response the stored error message is
the body's `detail` field when present and non-empty (JS truthiness), else
the fallback 'Upload failed: <status>'; a thrown Error surfaces its own
message, and a thrown non-Error value surfaces the generic 'Upload failed'. -/
theorem upload_error_message_policy (s : PageState) (status : Nat)
    (detail : Option String) (msg : String) :
    (handleFileUpload s (FetchOutcome.httpError status detail)).error
      = some (specUploadErrorMessage status detail) ∧
    (handleFileUpload s (FetchOutcome.raised (Thrown.errorObj msg))).error
      = some msg ∧
    (handleFileUpload s (FetchOutcome.raised Thrown.nonError)).error
      = some ("Upload failed") := by
  refine ⟨?_, rfl, rfl⟩
  cases detail with
  | none => rfl
  | some t =>
    by_cases ht : t = "" <;>
      simp [handleFileUpload, jsOr, strTruthy, specUploadErrorMessage,
        thrownMsg, ht]

/-- Fixture: a payload record with present vertices and faces and the given
optional texture coordinates and colors. -/
def mkPayload (vs : List (List ℚ)) (fs : List (List Nat))
    (tc c : Option (List (List ℚ))) (md : ModelMetadata) : ModelData :=
  { vertices := some vs, faces := some fs, texture_coords := tc, colors := c,
    metadata := md }

/-- C3: the assembler flattens `vertices` into the position buffer (three
scalars per vertex, order preserved) and `faces` into the index buffer
(order preserved, no winding correction): element 3i+k of the position
buffer is component k of vertex i, element 3j+k of the index buffer is
component k of face j, and the buffer lengths are three times the vertex
and face counts. -/
theorem rockMesh_buffer_layout (vs : List (List ℚ)) (fs : List (List Nat))
    (tc cols : Option (List (List ℚ))) (md : ModelMetadata)
    (hv : ∀ v ∈ vs, v.length = 3) (hf : ∀ f ∈ fs, f.length = 3)
    (hb : ∀ f ∈ fs, ∀ ix ∈ f, ix < 2 ^ 32) :
    ∃ g, rockMeshGeometry (mkPayload vs fs tc cols md) = some g ∧
      g.position.length = 3 * vs.length ∧
      g.index.length = 3 * fs.length ∧
      (∀ i k, k < 3 → g.position[3 * i + k]? = vs[i]?.bind fun v => v[k]?) ∧
      (∀ j k, k < 3 → g.index[3 * j + k]? = fs[j]?.bind fun f => f[k]?) := by
  refine ⟨_, rfl, ?_, ?_, ?_, ?_⟩
  · exact flatten_length_uniform vs hv
  · show (fs.flatten.map fun v => v % 2 ^ 32).length = 3 * fs.length
    rw [List.length_map, flatten_length_uniform fs hf]
  · intro i k hk
    exact flatten_getElem_uniform vs hv i k hk
  · intro j k hk
    show (fs.flatten.map fun v => v % 2 ^ 32)[3 * j + k]? = _
    rw [List.getElem?_map, flatten_getElem_uniform fs hf j k hk]
    cases hj : fs[j]? with
    | none => simp
    | some f =>
      cases hk2 : f[k]? with
      | none => simp [hk2]
      | some ix =>
        have hlt : ix < 2 ^ 32 :=
          hb f (List.getElem?_mem hj) ix (List.getElem?_mem hk2)
        simp [hk2]
        omega

/-- Witness for C3: the three-vertex, one-triangle payload assembles into a
buffer of exactly 9 position scalars (3 positions) and 3 indices (one
triangle), with exact element correspondence. -/
theorem rockMesh_buffer_layout_witness :
    ∃ g, rockMeshGeometry
        (mkPayload exampleVertices exampleFaces none none exampleMetadata)
        = some g ∧
      g.position.length = 9 ∧
      g.index.length = 3 ∧
      (∀ i k, k < 3 →
        g.position[3 * i + k]? = exampleVertices[i]?.bind fun v => v[k]?) ∧
      (∀ j k, k < 3 →
        g.index[3 * j + k]? = exampleFaces[j]?.bind fun f => f[k]?) :=
  rockMesh_buffer_layout exampleVertices exampleFaces none none exampleMetadata
    (by decide) (by decide) (by decide)

/-- C4: with colors omitted or empty, the material keeps the fixed rock-brown
0x8B7355, vertex-color shading is off and no color buffer is attached; with
colors present and non-empty (three components per color, one color per
vertex), vertex-color shading is on and a color buffer of length three times
the vertex count is attached. -/
theorem rockMesh_color_policy (vs : List (List ℚ)) (fs : List (List Nat))
    (tc c : Option (List (List ℚ))) (md : ModelMetadata) :
    ((c = none ∨ c = some []) →
      (rockMeshMaterial (mkPayload vs fs tc c md)).vertexColors = false ∧
      (rockMeshMaterial (mkPayload vs fs tc c md)).color = 0x8B7355 ∧
      (rockMeshGeometry (mkPayload vs fs tc c md)).map (fun g => g.color)
        = some none) ∧
    (∀ cs, c = some cs → cs ≠ [] → (∀ x ∈ cs, x.length = 3) →
      cs.length = vs.length →
      (rockMeshMaterial (mkPayload vs fs tc c md)).vertexColors = true ∧
      (rockMeshGeometry (mkPayload vs fs tc c md)).map (fun g => g.color)
        = some (some cs.flatten) ∧
      cs.flatten.length = 3 * vs.length) := by
  constructor
  · rintro (rfl | rfl) <;>
      simp [rockMeshMaterial, hasColors, rockMeshGeometry, mkPayload]
  · rintro cs rfl hne hlen3 hcard
    have hpos : 0 < cs.length := List.length_pos.mpr hne
    refine ⟨?_, ?_, ?_⟩
    · simp [rockMeshMaterial, hasColors, mkPayload, hpos]
    · simp [rockMeshGeometry, mkPayload, hpos]
    · rw [flatten_length_uniform cs hlen3, hcard]

/-- Fixture: one color per example vertex. -/
def exampleColors : List (List ℚ) := [[1, 0, 0], [0, 1, 0], [0, 0, 1]]

/-- Witness for C4: the example payload without colors gets the rock-brown
fallback and no color buffer; with three colors attached it gets vertex
colors and a 9-scalar color buffer. -/
theorem rockMesh_color_policy_witness :
    ((rockMeshMaterial (mkPayload exampleVertices exampleFaces none none
        exampleMetadata)).vertexColors = false ∧
      (rockMeshMaterial (mkPayload exampleVertices exampleFaces none none
        exampleMetadata)).color = 0x8B7355 ∧
      (rockMeshGeometry (mkPayload exampleVertices exampleFaces none none
        exampleMetadata)).map (fun g => g.color) = some none) ∧
    ((rockMeshMaterial (mkPayload exampleVertices exampleFaces none
        (some exampleColors) exampleMetadata)).vertexColors = true ∧
      (rockMeshGeometry (mkPayload exampleVertices exampleFaces none
        (some exampleColors) exampleMetadata)).map (fun g => g.color)
        = some (some exampleColors.flatten) ∧
      exampleColors.flatten.length = 3 * exampleVertices.length) :=
  ⟨(rockMesh_color_policy exampleVertices exampleFaces none none
      exampleMetadata).1 (Or.inl rfl),
   (rockMesh_color_policy exampleVertices exampleFaces none
      (some exampleColors) exampleMetadata).2 exampleColors rfl (by decide)
      (by decide) (by decide)⟩

/-- C5: the assembler is a pure, deterministic function of its payload: two
invocations on the same payload yield the same geometry and material, and in
particular position and index buffers of identical length and element-wise
identical values. -/
theorem rockMesh_pure (m₁ m₂ : ModelData) (h : m₁ = m₂) :
    rockMeshGeometry m₁ = rockMeshGeometry m₂ ∧
    rockMeshMaterial m₁ = rockMeshMaterial m₂ ∧
    ∀ g₁ g₂, rockMeshGeometry m₁ = some g₁ → rockMeshGeometry m₂ = some g₂ →
      g₁.position.length = g₂.position.length ∧
      g₁.index.length = g₂.index.length ∧
      (∀ i : Nat, g₁.position[i]? = g₂.position[i]?) ∧
      (∀ i : Nat, g₁.index[i]? = g₂.index[i]?) := by
  subst h
  refine ⟨rfl, rfl, ?_⟩
  intro g₁ g₂ h1 h2
  rw [h1] at h2
  injection h2 with hg
  subst hg
  exact ⟨rfl, rfl, fun _ => rfl, fun _ => rfl⟩

/-- Witness for C5: two invocations on the example payload agree. -/
theorem rockMesh_pure_witness :
    rockMeshGeometry exampleModelData = rockMeshGeometry exampleModelData ∧
    rockMeshMaterial exampleModelData = rockMeshMaterial exampleModelData ∧
    ∀ g₁ g₂, rockMeshGeometry exampleModelData = some g₁ →
      rockMeshGeometry exampleModelData = some g₂ →
      g₁.position.length = g₂.position.length ∧
      g₁.index.length = g₂.index.length ∧
      (∀ i : Nat, g₁.position[i]? = g₂.position[i]?) ∧
      (∀ i : Nat, g₁.index[i]? = g₂.index[i]?) :=
  rockMesh_pure exampleModelData exampleModelData rfl

/-- Fixture: a successful upload response. -/
def exampleUpload : UploadResponse :=
  { success := true, message := "uploaded", file_id := "abc123",
    filename := "rock.jpg", size := 1024, content_type := "image/jpeg",
    upload_time := "t0" }

/-- C6: reset clears both stored results, both error messages and the ready
flag, empties the file-picker input whenever it is mounted, and (outside an
in-flight upload, which none of the named states is) returns the derived
state machine to idle. -/
theorem reset_returns_to_idle (s : PageState) :
    (resetUpload s).uploadResult = none ∧
    (resetUpload s).generate3DResult = none ∧
    (resetUpload s).error = none ∧
    (resetUpload s).threeDError = none ∧
    (resetUpload s).is3DReady = false ∧
    (∀ v, s.fileInput = some v → (resetUpload s).fileInput = some "") ∧
    (s.isUploading = false → derivedState (resetUpload s) = UIState.idle) := by
  refine ⟨rfl, rfl, rfl, rfl, rfl, ?_, ?_⟩
  · intro v hv
    simp [resetUpload, hv]
  · intro hu
    simp [derivedState, resetUpload, hu]

/-- Fixture: a state holding results, errors and flags from a finished (and
failed) session — covering the ready / upload-error / generation-error
shapes at once. -/
def errorPageState : PageState :=
  { initialPageState with
      uploadResult := some exampleUpload
      error := some ("boom")
      generate3DResult := some (mkResponse (some exampleModelData))
      is3DReady := true
      threeDError := some ("bad") }

/-- Witness for C6: resetting the loaded-and-errored state clears every
result and error, empties the file input and lands in idle. -/
theorem reset_returns_to_idle_witness :
    (resetUpload errorPageState).uploadResult = none ∧
    (resetUpload errorPageState).generate3DResult = none ∧
    (resetUpload errorPageState).error = none ∧
    (resetUpload errorPageState).threeDError = none ∧
    (resetUpload errorPageState).is3DReady = false ∧
    (resetUpload errorPageState).fileInput = some "" ∧
    derivedState (resetUpload errorPageState) = UIState.idle := by
  have h := reset_returns_to_idle errorPageState
  exact ⟨h.1, h.2.1, h.2.2.1, h.2.2.2.1, h.2.2.2.2.1,
    h.2.2.2.2.2.1 "" rfl, h.2.2.2.2.2.2 rfl⟩

/-- C7: a drop carrying at least one file initiates exactly one upload, with
the first file of the drop; a drop carrying no files initiates none (and the
handler clears the dragging highlight either way). -/
theorem drop_uses_first_file (s : PageState) (f : JsFile) (rest : List JsFile) :
    (handleDrop s (f :: rest)).2 = [f] ∧
    ((handleDrop s (f :: rest)).2).length = 1 ∧
    (handleDrop s ([] : List JsFile)).2 = [] ∧
    (handleDrop s (f :: rest)).1.isDragging = false :=
  ⟨rfl, rfl, rfl, rfl⟩

/-- C9: both async handlers leave their in-progress flag false on every
completion path — success, non-2xx response or thrown failure; for the
generation handler this holds whenever an upload result is stored (without
one the handler is a guarded no-op that never set the flag). -/
theorem handlers_clear_progress_flags (s : PageState)
    (o : FetchOutcome UploadResponse) (o' : FetchOutcome Generate3DResponse) :
    (handleFileUpload s o).isUploading = false ∧
    (s.uploadResult.isSome = true →
      ((handleGenerate3D s o').1).isGenerating3D = false) := by
  constructor
  · cases o <;> rfl
  · intro h
    cases hu : s.uploadResult with
    | none => simp [hu] at h
    | some ur => cases o' <;> simp [handleGenerate3D, hu]

/-- Fixture: the initial state after a successful upload. -/
def uploadedPageState : PageState :=
  { initialPageState with uploadResult := some exampleUpload }

/-- Witness for C9: after concrete successful upload and generation calls
both flags are false. -/
theorem handlers_clear_progress_flags_witness :
    (handleFileUpload uploadedPageState
        (FetchOutcome.ok exampleUpload)).isUploading = false ∧
    ((handleGenerate3D uploadedPageState
        (FetchOutcome.ok (mkResponse (some exampleModelData)))).1).isGenerating3D
      = false := by
  have h := handlers_clear_progress_flags uploadedPageState
    (FetchOutcome.ok exampleUpload)
    (FetchOutcome.ok (mkResponse (some exampleModelData)))
  exact ⟨h.1, h.2 rfl⟩

/-- C10: with no stored upload result the generation handler issues no
request and leaves the whole state unchanged. -/
theorem generate_noop_without_upload (s : PageState)
    (o : FetchOutcome Generate3DResponse) (h : s.uploadResult = none) :
    handleGenerate3D s o = (s, []) := by
  simp [handleGenerate3D, h]

/-- Witness for C10: invoking generation from the initial state is a no-op. -/
theorem generate_noop_without_upload_witness :
    handleGenerate3D initialPageState
        (FetchOutcome.ok (mkResponse (some exampleModelData)))
      = (initialPageState, []) :=
  generate_noop_without_upload initialPageState
    (FetchOutcome.ok (mkResponse (some exampleModelData))) rfl

end Stonely
